import Mathlib

/-!
Verification of the coverage-analysis tool (`coverage_analysis.py`).

The Python program is shallowly embedded: Python floats are modelled as
rationals (all numeric literals the program's contracts mention are exact
decimals), Python ints as `Int`, fallible operations as `Option`, and the
single in-place mutation performed by the text-report formatter as explicit
state passing (the formatter returns the updated report next to the text).
-/

-- Batteries marks rational arithmetic irreducible; restore the default so
-- that concrete runs of the embedded program evaluate by `decide`.
attribute [local semireducible] Rat.add Rat.sub Rat.mul Rat.inv Rat.ofScientific

/-- Models Python's `int(s)` on an optionally signed string of decimal
digits; other accepted spellings (surrounding whitespace, underscores,
non-decimal bases) are not modelled.  Returns `none` where `int` raises. -/
def pyIntCore (cs : List Char) : Option Int :=
  if !cs.isEmpty && cs.all Char.isDigit then
    some (cs.foldl (fun n c => 10 * n + ((c.toNat - 48 : Nat) : Int)) 0)
  else none

/-- Sign handling of Python's `int(s)`. -/
def pyInt (s : String) : Option Int :=
  match s.data with
  | '-' :: rest => (pyIntCore rest).map (fun n => -n)
  | '+' :: rest => pyIntCore rest
  | cs => pyIntCore cs

/-- Splits a character list at the first dot, if any. -/
def splitDot : List Char → List Char × Option (List Char)
  | [] => ([], none)
  | c :: cs =>
    if c = '.' then ([], some cs)
    else
      let p := splitDot cs
      (c :: p.1, p.2)

/-- Value of a fraction-digit string: `fracVal ['4','5'] = 45/100`. -/
def fracVal : List Char → ℚ
  | [] => 0
  | c :: cs => (((c.toNat - 48 : Nat) : ℚ) + fracVal cs) / 10

/-- Integer value of a digit string. -/
def digitsVal (cs : List Char) : ℚ :=
  ((cs.foldl (fun n c => 10 * n + (c.toNat - 48)) 0 : Nat) : ℚ)

/-- Models Python's `float(s)` on unsigned decimal literals (`"12"`,
`"0.45"`, `"1."`, `".5"`); exponent, infinity and NaN spellings are not
modelled.  The value is the exact decimal as a rational: every constant
this program compares against (percent thresholds, tenths) is an exact
decimal, and at those values the binary double and the rational agree. -/
def pyFloatCore (cs : List Char) : Option ℚ :=
  match splitDot cs with
  | (ip, none) =>
    if !ip.isEmpty && ip.all Char.isDigit then some (digitsVal ip) else none
  | (ip, some fp) =>
    if (!ip.isEmpty || !fp.isEmpty) && ip.all Char.isDigit && fp.all Char.isDigit then
      some (digitsVal ip + fracVal fp)
    else none

/-- Sign handling of Python's `float(s)`. -/
def pyFloat (s : String) : Option ℚ :=
  match s.data with
  | '-' :: rest => (pyFloatCore rest).map (fun q => -q)
  | '+' :: rest => pyFloatCore rest
  | cs => pyFloatCore cs

/-! The XML tree, as far as the parser walks it: a root element, the
`packages/package` elements below it and the `classes/class` elements below
those, each carrying a string attribute dictionary. -/

/-- A `class` element of the input document. -/
structure XClass where
  attrib : List (String × String)
deriving DecidableEq

/-- A `package` element of the input document. -/
structure XPackage where
  attrib : List (String × String)
  classes : List XClass
deriving DecidableEq

/-- A parsed XML tree: root attributes and the `packages/package` elements.
`ET.parse` succeeding is modelled by an `XDoc` existing for the file. -/
structure XDoc where
  attrib : List (String × String)
  packages : List XPackage
deriving DecidableEq

/-- First binding of a key in an attribute dictionary (keys are unique in an
XML attribute dict, so first binding is the binding). -/
def lookupAttr (attrs : List (String × String)) (k : String) : Option String :=
  match attrs with
  | [] => none
  | (k2, v) :: rest => if k2 = k then some v else lookupAttr rest k

/-- Models Python's `attrib.get(k, dflt)`. -/
def attrD (attrs : List (String × String)) (k dflt : String) : String :=
  (lookupAttr attrs k).getD dflt

/-! The data model: the dictionaries built by `parse_cobertura_xml`.
`FileStats.module` models the `'module'` key, which the parser leaves
absent (`none`) and `generate_text_report` later assigns. -/

/-- Per-file record (`file_stats` dict in the source). -/
structure FileStats where
  name : String
  line_rate : ℚ
  branch_rate : ℚ
  complexity : ℚ
  lines : Int
  covered_lines : Int
  branches : Int
  covered_branches : Int
  module : Option String
deriving DecidableEq

/-- Per-module record (`module_stats` dict in the source). -/
structure ModuleStats where
  name : String
  line_rate : ℚ
  branch_rate : ℚ
  complexity : ℚ
  files : List FileStats
deriving DecidableEq

/-- The `coverage_data` dict.  Its `files` key is created as `[]` and never
filled by the parser; it is kept because the JSON serializer emits it. -/
structure CoverageData where
  total_lines : Int
  covered_lines : Int
  line_rate : ℚ
  total_branches : Int
  covered_branches : Int
  branch_rate : ℚ
  modules : List ModuleStats
  files : List FileStats
deriving DecidableEq

/-- Runs a fallible element action over a list, stopping at the first
failure — the behaviour of a Python `for` loop whose body may raise inside
the surrounding `try`. -/
def optionMapM (f : α → Option β) : List α → Option (List β)
  | [] => some []
  | a :: as =>
    (f a).bind fun b => (optionMapM f as).bind fun bs => some (b :: bs)

/-- Body of the inner `for class_elem in package.findall('classes/class')`
loop: builds `file_stats` from a `class` element. -/
def parseFileStats (c : XClass) : Option FileStats :=
  (pyFloat (attrD c.attrib "line-rate" "0.0")).bind fun lr =>
  (pyFloat (attrD c.attrib "branch-rate" "0.0")).bind fun br =>
  (pyFloat (attrD c.attrib "complexity" "0.0")).bind fun cx =>
  (pyInt (attrD c.attrib "lines-valid" "0")).bind fun lv =>
  (pyInt (attrD c.attrib "lines-covered" "0")).bind fun lc =>
  (pyInt (attrD c.attrib "branches-valid" "0")).bind fun bv =>
  (pyInt (attrD c.attrib "branches-covered" "0")).bind fun bc =>
  some { name := attrD c.attrib "filename" "unknown"
         line_rate := lr, branch_rate := br, complexity := cx
         lines := lv, covered_lines := lc
         branches := bv, covered_branches := bc
         module := none }

/-- Body of the `for package in root.findall('packages/package')` loop:
builds `module_stats` from a `package` element. -/
def parseModuleStats (p : XPackage) : Option ModuleStats :=
  (pyFloat (attrD p.attrib "line-rate" "0.0")).bind fun lr =>
  (pyFloat (attrD p.attrib "branch-rate" "0.0")).bind fun br =>
  (pyFloat (attrD p.attrib "complexity" "0.0")).bind fun cx =>
  (optionMapM parseFileStats p.classes).bind fun fs =>
  some { name := attrD p.attrib "name" "unknown"
         line_rate := lr, branch_rate := br, complexity := cx, files := fs }

/-- The part of `parse_cobertura_xml` after `ET.parse` succeeded: root
totals and rates, then the package loop.  Any conversion failure inside the
`try` block makes the whole call return `None`, here `none`. -/
def parseCoverageDoc (doc : XDoc) : Option CoverageData :=
  (pyInt (attrD doc.attrib "lines-valid" "0")).bind fun tl =>
  (pyInt (attrD doc.attrib "lines-covered" "0")).bind fun cl =>
  (pyFloat (attrD doc.attrib "line-rate" "0.0")).bind fun lr =>
  (pyInt (attrD doc.attrib "branches-valid" "0")).bind fun tb =>
  (pyInt (attrD doc.attrib "branches-covered" "0")).bind fun cb =>
  (pyFloat (attrD doc.attrib "branch-rate" "0.0")).bind fun br =>
  (optionMapM parseModuleStats doc.packages).bind fun ms =>
  some { total_lines := tl, covered_lines := cl, line_rate := lr
         total_branches := tb, covered_branches := cb, branch_rate := br
         modules := ms, files := [] }

/-- `parse_cobertura_xml(xml_file)`: the argument is the result of
`ET.parse` (`none` when reading or XML parsing raised, which the `except`
turns into `None`). -/
def parse_cobertura_xml (tree : Option XDoc) : Option CoverageData :=
  tree.bind parseCoverageDoc

/-! The text-report formatter `generate_text_report`.  The report is built
as a list of lines joined with newlines, exactly as the source appends to
its `report` list.  The source's only mutation — `file_info['module'] =
module['name']` inside the flattening loop, which updates the file dicts
shared with `coverage_data` — is modelled by returning the updated
`CoverageData` beside the text. -/

/-- Models Python string repetition `c * n` for a one-character string. -/
def repChar (c : Char) (n : Nat) : String :=
  String.mk (List.replicate n c)

/-- Inserts a comma after every third character of a reversed digit list. -/
def group3 : List Char → List Char
  | d1 :: d2 :: d3 :: d4 :: rest => d1 :: d2 :: d3 :: ',' :: group3 (d4 :: rest)
  | l => l

/-- Models Python's `format(n, ',')` on an integer: decimal digits with a
thousands separator every three digits. -/
def fmtComma (n : Int) : String :=
  (if n < 0 then "-" else "") ++
    String.mk ((group3 (Nat.repr n.natAbs).data.reverse).reverse)

/-- Rounds half to even, the rounding Python's `format` applies.  (Python
rounds the binary double; at the exact-decimal values this program
formats, the two agree.) -/
def roundHalfEven (q : ℚ) : Int :=
  let f := Rat.floor q
  if q - f < 1/2 then f
  else if 1/2 < q - f then f + 1
  else if f % 2 = 0 then f else f + 1

/-- Digits of `format(q, '.1f')` for non-negative `q`. -/
def fmt1Pos (q : ℚ) : String :=
  let n := (roundHalfEven (q * 10)).toNat
  Nat.repr (n / 10) ++ "." ++ Nat.repr (n % 10)

/-- Models Python's `format(q, '.1f')`. -/
def fmt1 (q : ℚ) : String :=
  if q < 0 then "-" ++ fmt1Pos (-q) else fmt1Pos q

/-- The status label attached to each file's line-coverage percentage:
`"✅ EXCELLENT" if coverage_pct >= 90 else "⚠️  GOOD" if coverage_pct >= 70
else "❌ NEEDS WORK"`. -/
def statusLabel (pct : ℚ) : String :=
  if 90 ≤ pct then "✅ EXCELLENT"
  else if 70 ≤ pct then "⚠️  GOOD"
  else "❌ NEEDS WORK"

/-- Concatenation of the per-element line lists, in list order (the shape
of a `for` loop appending to `report`). -/
def flatMapL (f : α → List β) : List α → List β
  | [] => []
  | a :: as => f a ++ flatMapL f as

/-- Models `sorted(coverage_data['modules'], key=lambda x: x['line_rate'],
reverse=True)`: the stable descending sort by line rate, realised by
insertion sort (stable sorts by one key agree on all inputs). -/
def sortModulesDesc (ms : List ModuleStats) : List ModuleStats :=
  List.insertionSort (fun a b => b.line_rate ≤ a.line_rate) ms

/-- Models `sorted(all_files, key=lambda x: x['line_rate'])`: the stable
ascending sort by line rate. -/
def sortFilesAsc (fs : List FileStats) : List FileStats :=
  List.insertionSort (fun a b => a.line_rate ≤ b.line_rate) fs

/-- The assignment `file_info['module'] = module['name']`. -/
def setModule (mname : String) (f : FileStats) : FileStats :=
  { f with module := some mname }

/-- The flattening loop of `generate_text_report`: walks the modules,
stamps each file dict with its owning module's name (the mutation) and
collects the stamped files.  Returns `all_files` together with the
modules as they stand after the mutation. -/
def collectFiles : List ModuleStats → List FileStats × List ModuleStats
  | [] => ([], [])
  | m :: ms =>
    let fs := m.files.map (setModule m.name)
    let p := collectFiles ms
    (fs ++ p.1, { m with files := fs } :: p.2)

/-- The `all_files` list of `generate_text_report`. -/
def allFilesOf (d : CoverageData) : List FileStats :=
  (collectFiles d.modules).1

/-- The `modules_sorted` list of `generate_text_report`. -/
def modulesSorted (d : CoverageData) : List ModuleStats :=
  sortModulesDesc d.modules

/-- The `all_files_sorted` list of `generate_text_report`. -/
def filesSorted (d : CoverageData) : List FileStats :=
  sortFilesAsc (allFilesOf d)

/-- The `low_coverage_files` list: files whose line-coverage percentage is
strictly below 50, filtered from `all_files` in its order. -/
def lowCoverageOf (fs : List FileStats) : List FileStats :=
  fs.filter fun f => decide (f.line_rate * 100 < 50)

/-- One bullet of the low-coverage list. -/
def lowLine (f : FileStats) : String :=
  "  • " ++ f.name ++ ": " ++ fmt1 (f.line_rate * 100) ++ "%"

/-- The lines the summary gains when `low_coverage_files` is non-empty;
nothing is appended when it is empty. -/
def lowSection (fs : List FileStats) : List String :=
  if lowCoverageOf fs = [] then []
  else
    ["", "🔍 Files needing attention (< 50% coverage):"] ++
      (lowCoverageOf fs).map lowLine

/-- The four banner lines opening the report. -/
def headerLines : List String :=
  [repChar '=' 80, "RUSTQL COVERAGE ANALYSIS REPORT", repChar '=' 80, ""]

/-- The overall-statistics block. -/
def overallLines (d : CoverageData) : List String :=
  ["📊 OVERALL COVERAGE STATISTICS",
   repChar '-' 40,
   "Total Lines:          " ++ fmtComma d.total_lines,
   "Covered Lines:        " ++ fmtComma d.covered_lines,
   "Line Coverage:        " ++ fmt1 (d.line_rate * 100) ++ "%",
   "Total Branches:       " ++ fmtComma d.total_branches,
   "Covered Branches:     " ++ fmtComma d.covered_branches,
   "Branch Coverage:      " ++ fmt1 (d.branch_rate * 100) ++ "%",
   ""]

/-- The lines printed for one module of the breakdown. -/
def moduleLines (m : ModuleStats) : List String :=
  ["Module: " ++ m.name,
   "  Line Coverage:   " ++ fmt1 (m.line_rate * 100) ++ "%",
   "  Branch Coverage: " ++ fmt1 (m.branch_rate * 100) ++ "%",
   "  Complexity:      " ++ fmt1 m.complexity,
   ""]

/-- The lines printed for one file of the detail section.  The `'module'`
key is always present here — `collectFiles` stamped it — so the `getD`
default is never consulted. -/
def fileLines (f : FileStats) : List String :=
  ["File: " ++ f.name,
   "  Module:        " ++ f.module.getD "unknown",
   "  Line Coverage: " ++ fmt1 (f.line_rate * 100) ++ "% " ++
     statusLabel (f.line_rate * 100),
   "  Lines:         " ++ toString f.covered_lines ++ "/" ++ toString f.lines,
   "  Branch Coverage: " ++ fmt1 (f.branch_rate * 100) ++ "%",
   "  Complexity:    " ++ fmt1 f.complexity,
   ""]

/-- The summary block, including the conditional low-coverage list. -/
def summaryLines (d : CoverageData) (allF : List FileStats) : List String :=
  ["🎯 SUMMARY & RECOMMENDATIONS",
   repChar '-' 40,
   (if 80 ≤ d.line_rate * 100 then
      "✅ EXCELLENT: Overall coverage is very good!"
    else if 60 ≤ d.line_rate * 100 then
      "⚠️  GOOD: Overall coverage is decent but could be improved"
    else
      "❌ NEEDS WORK: Overall coverage needs significant improvement"),
   "Current overall line coverage: " ++ fmt1 (d.line_rate * 100) ++ "%"] ++
  lowSection allF

/-- `generate_text_report(coverage_data)`.  The `None` argument covers the
`if not coverage_data` early return (the parser's dict, when present, has
eight keys and is never falsy).  The second component is the report value
as it stands after the call: the flattening loop has stamped every file
dict with its `'module'` key. -/
def generate_text_report : Option CoverageData → String × Option CoverageData
  | none => ("No coverage data available", none)
  | some d =>
    let report : List String :=
      headerLines ++
      overallLines d ++
      ["📁 MODULE COVERAGE BREAKDOWN", repChar '-' 40] ++
      flatMapL moduleLines (modulesSorted d) ++
      ["📄 DETAILED FILE COVERAGE", repChar '-' 40] ++
      flatMapL fileLines (filesSorted d) ++
      summaryLines d (allFilesOf d)
    (String.intercalate "\n" report,
     some { d with modules := (collectFiles d.modules).2 })

/-! The JSON serializer `generate_json_report` and the driver `main`. -/

/-- A JSON document as `json.dump` writes it.  Integer and float leaves are
kept apart (`json` writes `5` for a Python int and `5.0` for a float, and
`json.load` reads them back as the corresponding types); object members
keep insertion order, as Python dicts do. -/
inductive Json where
  | jint : Int → Json
  | jnum : ℚ → Json
  | jstr : String → Json
  | jarr : List Json → Json
  | jobj : List (String × Json) → Json

/-- Serialization of one file dict.  The optional `'module'` key, when the
text formatter has stamped it, sits last — it was inserted last. -/
def fileToJson (f : FileStats) : Json :=
  .jobj ([("name", .jstr f.name),
          ("line_rate", .jnum f.line_rate),
          ("branch_rate", .jnum f.branch_rate),
          ("complexity", .jnum f.complexity),
          ("lines", .jint f.lines),
          ("covered_lines", .jint f.covered_lines),
          ("branches", .jint f.branches),
          ("covered_branches", .jint f.covered_branches)] ++
         (match f.module with
          | none => []
          | some m => [("module", .jstr m)]))

/-- Serialization of one module dict. -/
def moduleToJson (m : ModuleStats) : Json :=
  .jobj [("name", .jstr m.name),
         ("line_rate", .jnum m.line_rate),
         ("branch_rate", .jnum m.branch_rate),
         ("complexity", .jnum m.complexity),
         ("files", .jarr (m.files.map fileToJson))]

/-- `generate_json_report(coverage_data, output_file)`: the document
`json.dump` writes to the output file, returned instead of written. -/
def generate_json_report (d : CoverageData) : Json :=
  .jobj [("total_lines", .jint d.total_lines),
         ("covered_lines", .jint d.covered_lines),
         ("line_rate", .jnum d.line_rate),
         ("total_branches", .jint d.total_branches),
         ("covered_branches", .jint d.covered_branches),
         ("branch_rate", .jnum d.branch_rate),
         ("modules", .jarr (d.modules.map moduleToJson)),
         ("files", .jarr (d.files.map fileToJson))]

/-- Reconstruction of a file record from its serialized form: reads back
exactly the members `fileToJson` emits, with or without the trailing
`'module'` member. -/
def fileFromJson : Json → Option FileStats
  | .jobj [("name", .jstr n), ("line_rate", .jnum lr),
           ("branch_rate", .jnum br), ("complexity", .jnum cx),
           ("lines", .jint lv), ("covered_lines", .jint lc),
           ("branches", .jint bv), ("covered_branches", .jint bc)] =>
    some ⟨n, lr, br, cx, lv, lc, bv, bc, none⟩
  | .jobj [("name", .jstr n), ("line_rate", .jnum lr),
           ("branch_rate", .jnum br), ("complexity", .jnum cx),
           ("lines", .jint lv), ("covered_lines", .jint lc),
           ("branches", .jint bv), ("covered_branches", .jint bc),
           ("module", .jstr md)] =>
    some ⟨n, lr, br, cx, lv, lc, bv, bc, some md⟩
  | _ => none

/-- Reconstruction of a module record from its serialized form. -/
def moduleFromJson : Json → Option ModuleStats
  | .jobj [("name", .jstr n), ("line_rate", .jnum lr),
           ("branch_rate", .jnum br), ("complexity", .jnum cx),
           ("files", .jarr fs)] =>
    (optionMapM fileFromJson fs).bind fun fl =>
    some ⟨n, lr, br, cx, fl⟩
  | _ => none

/-- Reconstruction of a whole report from the serializer's output. -/
def coverageFromJson : Json → Option CoverageData
  | .jobj [("total_lines", .jint tl), ("covered_lines", .jint cl),
           ("line_rate", .jnum lr), ("total_branches", .jint tb),
           ("covered_branches", .jint cb), ("branch_rate", .jnum br),
           ("modules", .jarr ms), ("files", .jarr fs)] =>
    (optionMapM moduleFromJson ms).bind fun ml =>
    (optionMapM fileFromJson fs).bind fun fl =>
    some ⟨tl, cl, lr, tb, cb, br, ml, fl⟩
  | _ => none

/-- Outcome of one run of the driver: the process exit status and the two
report files, `none` when a file was neither created nor modified. -/
structure MainOutcome where
  exitCode : Nat
  textFile : Option String
  jsonFile : Option Json

/-- `main()`.  The argument stands for the fixed input location
`coverage/cobertura.xml`: `none` when the file does not exist (the
`os.path.exists` guard), `some tree` otherwise, where `tree` is what
`ET.parse` yields (`none` for an unreadable or malformed document).  On
success the text report is generated first — mutating `coverage_data` —
and the JSON file then serializes the mutated value, before the text file
is written.  (Lean reserves the top-level name `main` for executable entry
points, hence the suffixed name.) -/
def mainRun (input : Option (Option XDoc)) : MainOutcome :=
  match input with
  | none => { exitCode := 1, textFile := none, jsonFile := none }
  | some tree =>
    match parse_cobertura_xml tree with
    | none => { exitCode := 1, textFile := none, jsonFile := none }
    | some data =>
      let tr := generate_text_report (some data)
      { exitCode := 0
        textFile := some tr.1
        jsonFile := tr.2.map generate_json_report }

/-! Specification-side predicates the claims are stated with. -/

/-- Report value after `generate_text_report`, described declaratively:
unchanged except that every per-file record carries its owning module's
name in the `'module'` field. -/
def annotateData (d : CoverageData) : CoverageData :=
  { d with modules :=
      d.modules.map fun m => { m with files := m.files.map (setModule m.name) } }

/-- Membership in the unit interval. -/
def inUnit (q : ℚ) : Prop := 0 ≤ q ∧ q ≤ 1

/-- Every rate of the report — overall, per module and per file — lies in
`[0,1]`. -/
def ratesInUnit (r : CoverageData) : Prop :=
  inUnit r.line_rate ∧ inUnit r.branch_rate ∧
    ∀ m ∈ r.modules, inUnit m.line_rate ∧ inUnit m.branch_rate ∧
      ∀ f ∈ m.files, inUnit f.line_rate ∧ inUnit f.branch_rate

/-- The integer attribute `k`, when present, converts with `int`. -/
def intAttrOk (attrs : List (String × String)) (k : String) : Bool :=
  match lookupAttr attrs k with
  | none => true
  | some v => (pyInt v).isSome

/-- The float attribute `k`, when present, converts with `float`. -/
def floatAttrOk (attrs : List (String × String)) (k : String) : Bool :=
  match lookupAttr attrs k with
  | none => true
  | some v => (pyFloat v).isSome

/-- The rate attribute `k`, when present, converts and denotes a value in
`[0,1]`. -/
def floatAttrInUnit (attrs : List (String × String)) (k : String) : Bool :=
  match lookupAttr attrs k with
  | none => true
  | some v =>
    match pyFloat v with
    | none => false
    | some q => decide (0 ≤ q ∧ q ≤ 1)

/-- Every numeric attribute of a `class` element that is present converts. -/
def wfClass (c : XClass) : Bool :=
  floatAttrOk c.attrib "line-rate" && floatAttrOk c.attrib "branch-rate" &&
  floatAttrOk c.attrib "complexity" && intAttrOk c.attrib "lines-valid" &&
  intAttrOk c.attrib "lines-covered" && intAttrOk c.attrib "branches-valid" &&
  intAttrOk c.attrib "branches-covered"

/-- Every numeric attribute of a `package` element and of the classes below
it that is present converts. -/
def wfPackage (p : XPackage) : Bool :=
  floatAttrOk p.attrib "line-rate" && floatAttrOk p.attrib "branch-rate" &&
  floatAttrOk p.attrib "complexity" && p.classes.all wfClass

/-- Every numeric attribute present anywhere in the document converts. -/
def wfDoc (doc : XDoc) : Bool :=
  intAttrOk doc.attrib "lines-valid" && intAttrOk doc.attrib "lines-covered" &&
  floatAttrOk doc.attrib "line-rate" && intAttrOk doc.attrib "branches-valid" &&
  intAttrOk doc.attrib "branches-covered" && floatAttrOk doc.attrib "branch-rate" &&
  doc.packages.all wfPackage

/-- Every rate attribute present anywhere in the document denotes a value
in `[0,1]`. -/
def rateAttrsOk (doc : XDoc) : Bool :=
  floatAttrInUnit doc.attrib "line-rate" &&
  floatAttrInUnit doc.attrib "branch-rate" &&
  doc.packages.all fun p =>
    floatAttrInUnit p.attrib "line-rate" &&
    floatAttrInUnit p.attrib "branch-rate" &&
    p.classes.all fun c =>
      floatAttrInUnit c.attrib "line-rate" &&
      floatAttrInUnit c.attrib "branch-rate"

/-- Absent numeric attributes of a `class` element came out as zero fields. -/
def fileAbsentZero (c : XClass) (f : FileStats) : Prop :=
  (lookupAttr c.attrib "line-rate" = none → f.line_rate = 0) ∧
  (lookupAttr c.attrib "branch-rate" = none → f.branch_rate = 0) ∧
  (lookupAttr c.attrib "complexity" = none → f.complexity = 0) ∧
  (lookupAttr c.attrib "lines-valid" = none → f.lines = 0) ∧
  (lookupAttr c.attrib "lines-covered" = none → f.covered_lines = 0) ∧
  (lookupAttr c.attrib "branches-valid" = none → f.branches = 0) ∧
  (lookupAttr c.attrib "branches-covered" = none → f.covered_branches = 0)

/-- Absent numeric attributes of a `package` element and of the classes
below it came out as zero fields. -/
def moduleAbsentZero (p : XPackage) (m : ModuleStats) : Prop :=
  (lookupAttr p.attrib "line-rate" = none → m.line_rate = 0) ∧
  (lookupAttr p.attrib "branch-rate" = none → m.branch_rate = 0) ∧
  (lookupAttr p.attrib "complexity" = none → m.complexity = 0) ∧
  List.Forall₂ fileAbsentZero p.classes m.files

/-- Absent numeric attributes anywhere in the document came out as zero
fields of the report. -/
def docAbsentZero (doc : XDoc) (r : CoverageData) : Prop :=
  (lookupAttr doc.attrib "lines-valid" = none → r.total_lines = 0) ∧
  (lookupAttr doc.attrib "lines-covered" = none → r.covered_lines = 0) ∧
  (lookupAttr doc.attrib "line-rate" = none → r.line_rate = 0) ∧
  (lookupAttr doc.attrib "branches-valid" = none → r.total_branches = 0) ∧
  (lookupAttr doc.attrib "branches-covered" = none → r.covered_branches = 0) ∧
  (lookupAttr doc.attrib "branch-rate" = none → r.branch_rate = 0) ∧
  List.Forall₂ moduleAbsentZero doc.packages r.modules

/-! Concrete inputs used by the witnesses and counterexamples below. -/

/-- A report with one module holding one file, as the parser would build it
(`module` field absent). -/
def sampleReport : CoverageData :=
  { total_lines := 10, covered_lines := 5, line_rate := 1/2
    total_branches := 0, covered_branches := 0, branch_rate := 0
    modules := [{ name := "core", line_rate := 1/2, branch_rate := 0,
                  complexity := 0
                  files := [{ name := "core/lib", line_rate := 1/2,
                              branch_rate := 0, complexity := 0,
                              lines := 10, covered_lines := 5, branches := 0,
                              covered_branches := 0, module := none }] }]
    files := [] }

/-- A document whose root `line-rate` attribute reads `1.5`. -/
def docRateHigh : XDoc :=
  { attrib := [("line-rate", "1.5")], packages := [] }

/-- What the parser makes of `docRateHigh`. -/
def dataRateHigh : CoverageData :=
  { total_lines := 0, covered_lines := 0, line_rate := 3/2
    total_branches := 0, covered_branches := 0, branch_rate := 0
    modules := [], files := [] }

/-- A document whose root `line-rate` attribute reads `0.8`. -/
def docRateOk : XDoc :=
  { attrib := [("line-rate", "0.8")], packages := [] }

/-- What the parser makes of `docRateOk`. -/
def dataRateOk : CoverageData :=
  { total_lines := 0, covered_lines := 0, line_rate := 4/5
    total_branches := 0, covered_branches := 0, branch_rate := 0
    modules := [], files := [] }

/-- A document omitting most numeric attributes: the root keeps only
`lines-covered`, the one package only its name, the one class only its
filename and `lines-valid`. -/
def docDefaults : XDoc :=
  { attrib := [("lines-covered", "3")]
    packages := [{ attrib := [("name", "core")]
                   classes := [{ attrib := [("filename", "a.rs"),
                                            ("lines-valid", "10")] }] }] }

/-- A document that is numeric everywhere except for its root `lines-valid`
attribute, which reads `abc`. -/
def docBadInt : XDoc :=
  { attrib := [("lines-valid", "abc"), ("lines-covered", "3"),
               ("line-rate", "0.5")]
    packages := [{ attrib := [("name", "core"), ("line-rate", "0.5")]
                   classes := [{ attrib := [("filename", "core/lib"),
                                            ("line-rate", "0.45"),
                                            ("lines-valid", "100"),
                                            ("lines-covered", "45")] }] }] }

/-- `docBadInt` with the offending value replaced by the number `120`. -/
def docGoodInt : XDoc :=
  { attrib := [("lines-valid", "120"), ("lines-covered", "3"),
               ("line-rate", "0.5")]
    packages := [{ attrib := [("name", "core"), ("line-rate", "0.5")]
                   classes := [{ attrib := [("filename", "core/lib"),
                                            ("line-rate", "0.45"),
                                            ("lines-valid", "100"),
                                            ("lines-covered", "45")] }] }] }

/-- What the parser makes of `docGoodInt`. -/
def dataGoodInt : CoverageData :=
  { total_lines := 120, covered_lines := 3, line_rate := 1/2
    total_branches := 0, covered_branches := 0, branch_rate := 0
    modules := [{ name := "core", line_rate := 1/2, branch_rate := 0,
                  complexity := 0
                  files := [{ name := "core/lib", line_rate := 9/20,
                              branch_rate := 0, complexity := 0,
                              lines := 100, covered_lines := 45, branches := 0,
                              covered_branches := 0, module := none }] }]
    files := [] }

/-- A file at exactly 49.9% line coverage. -/
def fileAt499 : FileStats :=
  { name := "low.rs", line_rate := 499/1000, branch_rate := 0, complexity := 0
    lines := 1000, covered_lines := 499, branches := 0, covered_branches := 0
    module := some "core" }

/-- A file at exactly 50.0% line coverage. -/
def fileAt500 : FileStats :=
  { name := "half.rs", line_rate := 1/2, branch_rate := 0, complexity := 0
    lines := 1000, covered_lines := 500, branches := 0, covered_branches := 0
    module := some "core" }

/-- Two modules with equal line rates, for exercising sort stability. -/
def twoModuleReport : CoverageData :=
  { total_lines := 0, covered_lines := 0, line_rate := 0
    total_branches := 0, covered_branches := 0, branch_rate := 0
    modules := [{ name := "first", line_rate := 1/2, branch_rate := 0,
                  complexity := 0, files := [] },
                { name := "second", line_rate := 1/2, branch_rate := 0,
                  complexity := 0, files := [] }]
    files := [] }

/-! Helper lemmas. -/

theorem optionMapM_exists {α β : Type} (f : α → Option β) (R : α → β → Prop) :
    ∀ l : List α, (∀ a ∈ l, ∃ b, f a = some b ∧ R a b) →
      ∃ l2, optionMapM f l = some l2 ∧ List.Forall₂ R l l2 := by
  intro l
  induction l with
  | nil => exact fun _ => ⟨[], rfl, List.Forall₂.nil⟩
  | cons a as ih =>
    intro h
    obtain ⟨b, hb, hR⟩ := h a (List.mem_cons_self a as)
    obtain ⟨bs, hbs, hRs⟩ := ih fun x hx => h x (List.mem_cons_of_mem a hx)
    exact ⟨b :: bs, by simp [optionMapM, hb, hbs], List.Forall₂.cons hR hRs⟩

theorem optionMapM_inv {α β : Type} (f : α → Option β) :
    ∀ (l : List α) (l2 : List β), optionMapM f l = some l2 →
      List.Forall₂ (fun a b => f a = some b) l l2 := by
  intro l
  induction l with
  | nil =>
    intro l2 h
    simp [optionMapM] at h
    simp [← h]
  | cons a as ih =>
    intro l2 h
    simp only [optionMapM, Option.bind_eq_some] at h
    obtain ⟨b, hb, bs, hbs, h⟩ := h
    simp only [Option.some.injEq] at h
    subst h
    exact List.Forall₂.cons hb (ih bs hbs)

theorem mem_right_of_forall2 {α β : Type} {R : α → β → Prop} :
    ∀ {l1 : List α} {l2 : List β}, List.Forall₂ R l1 l2 →
      ∀ b ∈ l2, ∃ a ∈ l1, R a b := by
  intro l1 l2 h
  induction h with
  | nil => intro b hb; cases hb
  | cons hR _ ih =>
    intro b hb
    rcases List.mem_cons.1 hb with hb | hb
    · exact ⟨_, List.mem_cons_self .., hb ▸ hR⟩
    · obtain ⟨a, ha, hab⟩ := ih b hb
      exact ⟨a, List.mem_cons_of_mem _ ha, hab⟩

theorem optionMapM_map {α β : Type} (g : β → Option α) (f : α → β)
    (h : ∀ a, g (f a) = some a) :
    ∀ l : List α, optionMapM g (l.map f) = some l := by
  intro l
  induction l with
  | nil => rfl
  | cons a as ih => simp [optionMapM, h, ih]

theorem intAttr_exists (attrs : List (String × String)) (k : String)
    (h : intAttrOk attrs k = true) :
    ∃ n, pyInt (attrD attrs k "0") = some n ∧
      (lookupAttr attrs k = none → n = 0) := by
  cases hl : lookupAttr attrs k with
  | none =>
    refine ⟨0, ?_, fun _ => rfl⟩
    simp only [attrD, hl, Option.getD_none]
    decide
  | some v =>
    rw [intAttrOk, hl] at h
    obtain ⟨n, hn⟩ := Option.isSome_iff_exists.1 h
    exact ⟨n, by simp [attrD, hl, hn], fun hc => by simp [hl] at hc⟩

theorem floatAttr_exists (attrs : List (String × String)) (k : String)
    (h : floatAttrOk attrs k = true) :
    ∃ q, pyFloat (attrD attrs k "0.0") = some q ∧
      (lookupAttr attrs k = none → q = 0) := by
  cases hl : lookupAttr attrs k with
  | none =>
    refine ⟨0, ?_, fun _ => rfl⟩
    simp only [attrD, hl, Option.getD_none]
    decide
  | some v =>
    rw [floatAttrOk, hl] at h
    obtain ⟨q, hq⟩ := Option.isSome_iff_exists.1 h
    exact ⟨q, by simp [attrD, hl, hq], fun hc => by simp [hl] at hc⟩

theorem floatAttrInUnit_val (attrs : List (String × String)) (k : String)
    (q : ℚ) (hok : floatAttrInUnit attrs k = true)
    (h : pyFloat (attrD attrs k "0.0") = some q) : 0 ≤ q ∧ q ≤ 1 := by
  cases hl : lookupAttr attrs k with
  | none =>
    rw [attrD, hl, Option.getD_none] at h
    have h0 : pyFloat "0.0" = some 0 := by decide
    rw [h0] at h
    obtain rfl : (0 : ℚ) = q := Option.some.inj h
    exact ⟨le_refl 0, by norm_num⟩
  | some v =>
    rw [attrD, hl, Option.getD_some] at h
    rw [floatAttrInUnit, hl] at hok
    have hok2 : (match pyFloat v with
                 | none => false
                 | some q => decide (0 ≤ q ∧ q ≤ 1)) = true := hok
    rw [h] at hok2
    simpa using hok2

theorem parseFileStats_wf (c : XClass) (h : wfClass c = true) :
    ∃ f, parseFileStats c = some f ∧ fileAbsentZero c f := by
  simp only [wfClass, Bool.and_eq_true] at h
  obtain ⟨⟨⟨⟨⟨⟨h1, h2⟩, h3⟩, h4⟩, h5⟩, h6⟩, h7⟩ := h
  obtain ⟨lr, hlr, hlr0⟩ := floatAttr_exists c.attrib "line-rate" h1
  obtain ⟨br, hbr, hbr0⟩ := floatAttr_exists c.attrib "branch-rate" h2
  obtain ⟨cx, hcx, hcx0⟩ := floatAttr_exists c.attrib "complexity" h3
  obtain ⟨lv, hlv, hlv0⟩ := intAttr_exists c.attrib "lines-valid" h4
  obtain ⟨lc, hlc, hlc0⟩ := intAttr_exists c.attrib "lines-covered" h5
  obtain ⟨bv, hbv, hbv0⟩ := intAttr_exists c.attrib "branches-valid" h6
  obtain ⟨bc, hbc, hbc0⟩ := intAttr_exists c.attrib "branches-covered" h7
  refine ⟨{ name := attrD c.attrib "filename" "unknown"
            line_rate := lr, branch_rate := br, complexity := cx
            lines := lv, covered_lines := lc
            branches := bv, covered_branches := bc
            module := none }, ?_, ?_⟩
  · simp [parseFileStats, hlr, hbr, hcx, hlv, hlc, hbv, hbc]
  · exact ⟨hlr0, hbr0, hcx0, hlv0, hlc0, hbv0, hbc0⟩

theorem parseModuleStats_wf (p : XPackage) (h : wfPackage p = true) :
    ∃ m, parseModuleStats p = some m ∧ moduleAbsentZero p m := by
  simp only [wfPackage, Bool.and_eq_true, List.all_eq_true] at h
  obtain ⟨⟨⟨h1, h2⟩, h3⟩, hcls⟩ := h
  obtain ⟨lr, hlr, hlr0⟩ := floatAttr_exists p.attrib "line-rate" h1
  obtain ⟨br, hbr, hbr0⟩ := floatAttr_exists p.attrib "branch-rate" h2
  obtain ⟨cx, hcx, hcx0⟩ := floatAttr_exists p.attrib "complexity" h3
  obtain ⟨fs, hfs, hF⟩ :=
    optionMapM_exists parseFileStats fileAbsentZero p.classes
      fun c hc => parseFileStats_wf c (hcls c hc)
  refine ⟨{ name := attrD p.attrib "name" "unknown"
            line_rate := lr, branch_rate := br, complexity := cx
            files := fs }, ?_, ?_⟩
  · simp [parseModuleStats, hlr, hbr, hcx, hfs]
  · exact ⟨hlr0, hbr0, hcx0, hF⟩

theorem parseCoverageDoc_wf (doc : XDoc) (h : wfDoc doc = true) :
    ∃ r, parseCoverageDoc doc = some r ∧ docAbsentZero doc r := by
  simp only [wfDoc, Bool.and_eq_true, List.all_eq_true] at h
  obtain ⟨⟨⟨⟨⟨⟨h1, h2⟩, h3⟩, h4⟩, h5⟩, h6⟩, hpkgs⟩ := h
  obtain ⟨tl, htl, htl0⟩ := intAttr_exists doc.attrib "lines-valid" h1
  obtain ⟨cl, hcl, hcl0⟩ := intAttr_exists doc.attrib "lines-covered" h2
  obtain ⟨lr, hlr, hlr0⟩ := floatAttr_exists doc.attrib "line-rate" h3
  obtain ⟨tb, htb, htb0⟩ := intAttr_exists doc.attrib "branches-valid" h4
  obtain ⟨cb, hcb, hcb0⟩ := intAttr_exists doc.attrib "branches-covered" h5
  obtain ⟨br, hbr, hbr0⟩ := floatAttr_exists doc.attrib "branch-rate" h6
  obtain ⟨ms, hms, hM⟩ :=
    optionMapM_exists parseModuleStats moduleAbsentZero doc.packages
      fun p hp => parseModuleStats_wf p (hpkgs p hp)
  refine ⟨{ total_lines := tl, covered_lines := cl, line_rate := lr
            total_branches := tb, covered_branches := cb, branch_rate := br
            modules := ms, files := [] }, ?_, ?_⟩
  · simp [parseCoverageDoc, htl, hcl, hlr, htb, hcb, hbr, hms]
  · exact ⟨htl0, hcl0, hlr0, htb0, hcb0, hbr0, hM⟩

theorem parseFileStats_inv (c : XClass) (f : FileStats)
    (h : parseFileStats c = some f) :
    pyFloat (attrD c.attrib "line-rate" "0.0") = some f.line_rate ∧
    pyFloat (attrD c.attrib "branch-rate" "0.0") = some f.branch_rate := by
  simp only [parseFileStats, Option.bind_eq_some] at h
  obtain ⟨lr, hlr, br, hbr, cx, hcx, lv, hlv, lc, hlc, bv, hbv, bc, hbc, h⟩ := h
  simp only [Option.some.injEq] at h
  subst h
  exact ⟨hlr, hbr⟩

theorem parseModuleStats_inv (p : XPackage) (m : ModuleStats)
    (h : parseModuleStats p = some m) :
    pyFloat (attrD p.attrib "line-rate" "0.0") = some m.line_rate ∧
    pyFloat (attrD p.attrib "branch-rate" "0.0") = some m.branch_rate ∧
    optionMapM parseFileStats p.classes = some m.files := by
  simp only [parseModuleStats, Option.bind_eq_some] at h
  obtain ⟨lr, hlr, br, hbr, cx, hcx, fs, hfs, h⟩ := h
  simp only [Option.some.injEq] at h
  subst h
  exact ⟨hlr, hbr, hfs⟩

theorem parseCoverageDoc_inv (doc : XDoc) (r : CoverageData)
    (h : parseCoverageDoc doc = some r) :
    pyFloat (attrD doc.attrib "line-rate" "0.0") = some r.line_rate ∧
    pyFloat (attrD doc.attrib "branch-rate" "0.0") = some r.branch_rate ∧
    optionMapM parseModuleStats doc.packages = some r.modules := by
  simp only [parseCoverageDoc, Option.bind_eq_some] at h
  obtain ⟨tl, htl, cl, hcl, lr, hlr, tb, htb, cb, hcb, br, hbr, ms, hms, h⟩ := h
  simp only [Option.some.injEq] at h
  subst h
  exact ⟨hlr, hbr, hms⟩

theorem filterEq_orderedInsert {α : Type} (key : α → ℚ) (r : α → α → Prop)
    [DecidableRel r] (hr : ∀ a b, ¬ r a b → key a ≠ key b) (q : ℚ) (a : α) :
    ∀ l : List α,
      (List.orderedInsert r a l).filter (fun x => decide (key x = q)) =
        ((a :: l).filter (fun x => decide (key x = q))) := by
  intro l
  induction l with
  | nil => rfl
  | cons b bs ih =>
    rw [List.orderedInsert]
    split_ifs with hab
    · rfl
    · have hne := hr a b hab
      by_cases hka : key a = q
      · have hkb : ¬ key b = q := fun hkb => hne (hka.trans hkb.symm)
        simp [List.filter_cons, ih, hka, hkb]
      · simp [List.filter_cons, ih, hka]

theorem filterEq_insertionSort {α : Type} (key : α → ℚ) (r : α → α → Prop)
    [DecidableRel r] (hr : ∀ a b, ¬ r a b → key a ≠ key b) (q : ℚ) :
    ∀ l : List α,
      (List.insertionSort r l).filter (fun x => decide (key x = q)) =
        l.filter (fun x => decide (key x = q)) := by
  intro l
  induction l with
  | nil => rfl
  | cons a l ih =>
    rw [List.insertionSort, filterEq_orderedInsert key r hr q a]
    simp only [List.filter_cons, ih]

theorem collectFiles_eq : ∀ ms : List ModuleStats,
    collectFiles ms =
      (flatMapL (fun m => m.files.map (setModule m.name)) ms,
       ms.map fun m => { m with files := m.files.map (setModule m.name) }) := by
  intro ms
  induction ms with
  | nil => rfl
  | cons m ms ih => simp [collectFiles, flatMapL, ih]

theorem fileFromJson_toJson (f : FileStats) :
    fileFromJson (fileToJson f) = some f := by
  obtain ⟨n, lr, br, cx, lv, lc, bv, bc, md⟩ := f
  cases md <;> rfl

theorem moduleFromJson_toJson (m : ModuleStats) :
    moduleFromJson (moduleToJson m) = some m := by
  obtain ⟨n, lr, br, cx, fs⟩ := m
  simp only [moduleToJson, moduleFromJson]
  rw [optionMapM_map fileFromJson fileToJson fileFromJson_toJson]
  rfl

/-! Claim theorems. -/

/-- Claim C1, counterexample: the formatter is not side-effect free.  On a
report with one module holding one file, the report value after the call
differs from the value passed in — the flattening loop assigned
`file_info['module']`, so the per-file record no longer holds exactly the
fields the parser produced. -/
theorem text_report_mutates_counterexample :
    (generate_text_report (some sampleReport)).2 ≠ some sampleReport := by
  decide

/-- Claim C1, amended: after `generate_text_report` the report it was given
is unchanged except that every per-file record has gained a `'module'`
field holding its owning module's name; the text is returned beside it. -/
theorem text_report_state_annotates (d : CoverageData) :
    (generate_text_report (some d)).2 = some (annotateData d) := by
  simp [generate_text_report, collectFiles_eq, annotateData]

/-- Claim C2, counterexample: the parser accepts a document whose root
`line-rate` attribute reads `1.5` and stores the rate `3/2`, outside
`[0,1]` — no range validation happens. -/
theorem parse_rate_above_one_counterexample :
    parse_cobertura_xml (some docRateHigh) = some dataRateHigh ∧
      ¬ ratesInUnit dataRateHigh := by
  refine ⟨by decide, fun h => absurd h.1.2 (by decide)⟩

/-- Claim C2, amended: every rate of a successfully parsed report lies in
`[0,1]` provided every rate attribute present in the document denotes a
value in `[0,1]` (absent rate attributes default to `0`); the parser copies
rates unvalidated, so the bound comes from the input, not from the code. -/
theorem parse_rates_in_unit (doc : XDoc) (r : CoverageData)
    (hp : parse_cobertura_xml (some doc) = some r)
    (hok : rateAttrsOk doc = true) : ratesInUnit r := by
  have hp2 : parseCoverageDoc doc = some r := hp
  simp only [rateAttrsOk, Bool.and_eq_true, List.all_eq_true] at hok
  obtain ⟨⟨hroot1, hroot2⟩, hpkgs⟩ := hok
  obtain ⟨hlr, hbr, hms⟩ := parseCoverageDoc_inv doc r hp2
  refine ⟨floatAttrInUnit_val _ _ _ hroot1 hlr,
          floatAttrInUnit_val _ _ _ hroot2 hbr, ?_⟩
  intro m hm
  obtain ⟨p, hpmem, hpm⟩ :=
    mem_right_of_forall2 (optionMapM_inv _ _ _ hms) m hm
  have hpok := hpkgs p hpmem
  simp only [Bool.and_eq_true, List.all_eq_true] at hpok
  obtain ⟨⟨hp1, hp2'⟩, hcls⟩ := hpok
  obtain ⟨hmlr, hmbr, hfs⟩ := parseModuleStats_inv p m hpm
  refine ⟨floatAttrInUnit_val _ _ _ hp1 hmlr,
          floatAttrInUnit_val _ _ _ hp2' hmbr, ?_⟩
  intro f hf
  obtain ⟨c, hcmem, hcf⟩ :=
    mem_right_of_forall2 (optionMapM_inv _ _ _ hfs) f hf
  have hcok := hcls c hcmem
  simp only [Bool.and_eq_true] at hcok
  obtain ⟨hflr, hfbr⟩ := parseFileStats_inv c f hcf
  exact ⟨floatAttrInUnit_val _ _ _ hcok.1 hflr,
         floatAttrInUnit_val _ _ _ hcok.2 hfbr⟩

/-- Claim C2, witness: the amended theorem applied to a concrete document
whose one rate attribute reads `0.8`. -/
theorem parse_rates_in_unit_witness :
    rateAttrsOk docRateOk = true ∧ ratesInUnit dataRateOk :=
  ⟨by decide, parse_rates_in_unit docRateOk dataRateOk (by decide) (by decide)⟩

/-- Claim C3: when the coverage file is missing, or the parse yields no
data, the driver exits with status 1 and writes neither report file. -/
theorem mainRun_failure (input : Option (Option XDoc))
    (h : input = none ∨
      ∃ tree, input = some tree ∧ parse_cobertura_xml tree = none) :
    (mainRun input).exitCode = 1 ∧ (mainRun input).textFile = none ∧
      (mainRun input).jsonFile = none := by
  rcases h with rfl | ⟨tree, rfl, hp⟩
  · exact ⟨rfl, rfl, rfl⟩
  · simp [mainRun, hp]

/-- Claim C3, witness: the theorem applied to the missing-file run. -/
theorem mainRun_failure_witness :
    (mainRun none).exitCode = 1 ∧ (mainRun none).textFile = none ∧
      (mainRun none).jsonFile = none :=
  mainRun_failure none (Or.inl rfl)

/-- Claim C4: on a document whose present numeric attributes all convert,
the parse succeeds, and every absent numeric attribute came out as the
zero of its field — the parser never fails on absence. -/
theorem parse_absent_defaults_zero (doc : XDoc) (h : wfDoc doc = true) :
    ∃ r, parse_cobertura_xml (some doc) = some r ∧ docAbsentZero doc r :=
  parseCoverageDoc_wf doc h

/-- Claim C4, witness: the theorem applied to a concrete document omitting
most numeric attributes at every level. -/
theorem parse_absent_defaults_zero_witness :
    wfDoc docDefaults = true ∧
      ∃ r, parse_cobertura_xml (some docDefaults) = some r ∧
        docAbsentZero docDefaults r :=
  ⟨by decide, parse_absent_defaults_zero docDefaults (by decide)⟩

/-- Claim C5: deserializing the serializer's output reconstructs a report
equal in value to the input — `generate_json_report` loses nothing. -/
theorem json_report_round_trip (d : CoverageData) :
    coverageFromJson (generate_json_report d) = some d := by
  obtain ⟨tl, cl, lr, tb, cb, br, ms, fs⟩ := d
  simp only [generate_json_report, coverageFromJson]
  rw [optionMapM_map moduleFromJson moduleToJson moduleFromJson_toJson,
      optionMapM_map fileFromJson fileToJson fileFromJson_toJson]
  rfl

/-- Claim C6: in the per-file detail section, the status label is the
EXCELLENT one exactly when the line-coverage percentage is at least 90, the
GOOD one exactly on `[70, 90)`, and the NEEDS-WORK one exactly below 70 —
both boundaries inclusive: 90.0% is EXCELLENT, 70.0% is GOOD, 69.9% is
NEEDS WORK. -/
theorem statusLabel_boundaries (rate : ℚ) :
    (statusLabel (rate * 100) = "✅ EXCELLENT" ↔ 90 ≤ rate * 100) ∧
    (statusLabel (rate * 100) = "⚠️  GOOD" ↔
      70 ≤ rate * 100 ∧ rate * 100 < 90) ∧
    (statusLabel (rate * 100) = "❌ NEEDS WORK" ↔ rate * 100 < 70) ∧
    statusLabel ((9 : ℚ) / 10 * 100) = "✅ EXCELLENT" ∧
    statusLabel ((7 : ℚ) / 10 * 100) = "⚠️  GOOD" ∧
    statusLabel ((699 : ℚ) / 1000 * 100) = "❌ NEEDS WORK" := by
  have hEG : ("✅ EXCELLENT" : String) ≠ "⚠️  GOOD" := by decide
  have hEN : ("✅ EXCELLENT" : String) ≠ "❌ NEEDS WORK" := by decide
  have hGN : ("⚠️  GOOD" : String) ≠ "❌ NEEDS WORK" := by decide
  refine ⟨⟨?_, ?_⟩, ⟨?_, ?_⟩, ⟨?_, ?_⟩, by decide, by decide, by decide⟩
  · intro hl
    by_contra hge
    rw [statusLabel, if_neg hge] at hl
    split_ifs at hl
    · exact hEG hl.symm
    · exact hEN hl.symm
  · intro hge
    rw [statusLabel, if_pos hge]
  · intro hl
    rw [statusLabel] at hl
    split_ifs at hl with h1 h2
    · exact absurd hl hEG
    · exact ⟨h2, not_le.1 h1⟩
    · exact absurd hl.symm hGN
  · rintro ⟨hge, hlt⟩
    rw [statusLabel, if_neg (not_le.2 hlt), if_pos hge]
  · intro hl
    rw [statusLabel] at hl
    split_ifs at hl with h1 h2
    · exact absurd hl hEN
    · exact absurd hl hGN
    · exact not_le.1 h2
  · intro hlt
    rw [statusLabel, if_neg (not_le.2 (lt_trans hlt (by norm_num))),
        if_neg (not_le.2 hlt)]

/-- Claim C6, witness: the 90.0% boundary decided through the theorem. -/
theorem statusLabel_boundaries_witness :
    statusLabel ((9 : ℚ) / 10 * 100) = "✅ EXCELLENT" :=
  (statusLabel_boundaries (9 / 10)).1.mpr (by decide)

/-- Claim C7: the low-coverage list holds exactly the files whose
line-coverage percentage is strictly below 50, in the original flattened
order (it is a sublist of `all_files`, which is never re-sorted), the
section vanishes exactly when the list is empty, and the boundaries are
strict: 49.9% is included, 50.0% is not. -/
theorem low_coverage_selection (fs : List FileStats) :
    (∀ f, f ∈ lowCoverageOf fs ↔ f ∈ fs ∧ f.line_rate * 100 < 50) ∧
    (lowCoverageOf fs).Sublist fs ∧
    (lowSection fs = [] ↔ lowCoverageOf fs = []) ∧
    (lowCoverageOf fs ≠ [] →
      lowSection fs = ["", "🔍 Files needing attention (< 50% coverage):"] ++
        (lowCoverageOf fs).map lowLine) ∧
    fileAt499 ∈ lowCoverageOf [fileAt499, fileAt500] ∧
    fileAt500 ∉ lowCoverageOf [fileAt499, fileAt500] := by
  refine ⟨?_, List.filter_sublist _, ?_, ?_, by decide, by decide⟩
  · intro f
    rw [lowCoverageOf, List.mem_filter]
    simp
  · rw [lowSection]
    split_ifs with h <;> simp [h]
  · intro h
    rw [lowSection, if_neg h]

/-- Claim C7, witness: the membership characterization applied to a
concrete one-file list at 49.9%. -/
theorem low_coverage_selection_witness :
    fileAt499 ∈ lowCoverageOf [fileAt499] :=
  ((low_coverage_selection [fileAt499]).1 fileAt499).mpr ⟨by decide, by decide⟩

/-- Claim C8: the module breakdown is sorted by descending line rate and
the sort is stable — it permutes the parsed list, consecutive entries have
non-increasing line rates, and for every rate value the entries carrying it
appear exactly as they do in the input. -/
theorem module_sort_spec (d : CoverageData) :
    (modulesSorted d).Perm d.modules ∧
    (modulesSorted d).Pairwise (fun a b => b.line_rate ≤ a.line_rate) ∧
    ∀ q : ℚ, (modulesSorted d).filter (fun m => decide (m.line_rate = q)) =
      d.modules.filter (fun m => decide (m.line_rate = q)) := by
  refine ⟨List.perm_insertionSort _ _, ?_, ?_⟩
  · letI : IsTotal ModuleStats (fun a b => b.line_rate ≤ a.line_rate) :=
      ⟨fun a b => le_total b.line_rate a.line_rate⟩
    letI : IsTrans ModuleStats (fun a b => b.line_rate ≤ a.line_rate) :=
      ⟨fun _ _ _ hab hbc => le_trans hbc hab⟩
    exact List.sorted_insertionSort _ _
  · intro q
    exact filterEq_insertionSort (fun m => m.line_rate) _
      (fun a b hab he => hab (le_of_eq he.symm)) q d.modules

/-- Claim C8, witness: the stable sort leaves the two equal-rate modules of
a concrete report in input order. -/
theorem module_sort_spec_witness :
    (modulesSorted twoModuleReport).filter
        (fun m => decide (m.line_rate = 1 / 2)) =
      twoModuleReport.modules.filter (fun m => decide (m.line_rate = 1 / 2)) :=
  (module_sort_spec twoModuleReport).2.2 (1 / 2)

/-- Claim C9: the file detail section works on the flattening of all
modules' files in module order then per-module file order, sorted by
ascending line rate; the sort is stable in the same filter sense, and only
that flattened order matters to it. -/
theorem file_sort_spec (d : CoverageData) :
    allFilesOf d = flatMapL (fun m => m.files.map (setModule m.name)) d.modules ∧
    (filesSorted d).Perm (allFilesOf d) ∧
    (filesSorted d).Pairwise (fun a b => a.line_rate ≤ b.line_rate) ∧
    ∀ q : ℚ, (filesSorted d).filter (fun f => decide (f.line_rate = q)) =
      (allFilesOf d).filter (fun f => decide (f.line_rate = q)) := by
  refine ⟨?_, List.perm_insertionSort _ _, ?_, ?_⟩
  · rw [allFilesOf, collectFiles_eq]
  · letI : IsTotal FileStats (fun a b => a.line_rate ≤ b.line_rate) :=
      ⟨fun a b => le_total a.line_rate b.line_rate⟩
    letI : IsTrans FileStats (fun a b => a.line_rate ≤ b.line_rate) :=
      ⟨fun _ _ _ hab hbc => le_trans hab hbc⟩
    exact List.sorted_insertionSort _ _
  · intro q
    exact filterEq_insertionSort (fun f => f.line_rate) _
      (fun a b hab he => hab (le_of_eq he)) q (allFilesOf d)

/-- Claim C9, witness: the flattening equation applied to the sample
report. -/
theorem file_sort_spec_witness :
    allFilesOf sampleReport =
      flatMapL (fun m => m.files.map (setModule m.name)) sampleReport.modules :=
  (file_sort_spec sampleReport).1

/-- Claim C10: a present but non-numeric attribute value is not defaulted:
on a document identical but for `lines-valid="abc"` the parse as a whole
fails and yields no data, while the all-numeric variant of the same
document parses fully. -/
theorem parse_nonnumeric_fails :
    parse_cobertura_xml (some docBadInt) = none ∧
    parse_cobertura_xml (some docGoodInt) = some dataGoodInt := by
  exact ⟨by decide, by decide⟩
